import Mathlib

/-!
Verification development for the YouTube-downloader backend
(`src/backend/server.py`).  The Python handlers are shallowly embedded as
pure Lean functions: the external media-extraction library (`yt_dlp`) is an
opaque collaborator, so each handler takes the outcome of its library call as
an explicit parameter; dictionaries returned by the library are embedded as
structures of `Option`-valued fields (`none` = key absent), with the `height`
field an `Option (Option Int)` so that a key that is present but holds JSON
null (`'height': None`, which yt-dlp emits) is distinguishable from an absent
key.  Raised exceptions become `Except` errors carrying the HTTP status and
detail string.
-/

namespace Server

/-! ### Python string primitives -/

/-- Boolean test that the first character list starts the second
(the workhorse behind the embeddings of `re.match` literals and of
Python's `in` operator). -/
def leadsWith : List Char → List Char → Bool
  | [], _ => true
  | _ :: _, [] => false
  | p :: ps, c :: cs => p == c && leadsWith ps cs

/-- Boolean substring occurrence test on character lists:
`containsSub pat l` is true iff `pat` occurs contiguously inside `l`. -/
def containsSub (pat : List Char) : List Char → Bool
  | [] => leadsWith pat []
  | c :: cs => leadsWith pat (c :: cs) || containsSub pat cs

/-- Embedding of Python's `pat in s` substring test (`server.py` lines
90-94 classify error messages with it). -/
def pyIn (pat s : String) : Bool := containsSub pat.data s.data

/-- Strip a literal from the front of a character list, returning the
remainder on success. -/
def dropLead : List Char → List Char → Option (List Char)
  | [], l => some l
  | _ :: _, [] => none
  | p :: ps, c :: cs => if p == c then dropLead ps cs else none

/-! ### URL validator (`is_valid_youtube_url`, `server.py` lines 62-68)

The regex is
`(https?://)?(www\.)?(youtube|youtu|youtube-nocookie)\.(com|be)/`
`(watch\?v=|embed/|v/|.+\?v=)?([^&=%\?]{11})`, applied with `re.match`
(anchored at the start only; a prefix match suffices).  The first four
groups plus the literal dot and slash are finite alternations, embedded
below as the explicit list of their 36 concatenations; the fifth group and
the character class are embedded as a backtracking matcher, which decides
exactly the existence of a regex decomposition. -/

/-- The 36 domain variants accepted by the finite head of the regex:
every concatenation of `(https?://)?`, `(www\.)?`,
`(youtube|youtu|youtube-nocookie)`, `\.` and `(com|be)`. -/
def domainVariants : List String :=
  ["", "http://", "https://"].flatMap fun p1 =>
    ["", "www."].flatMap fun p2 =>
      ["youtube", "youtu", "youtube-nocookie"].flatMap fun p3 =>
        ["com", "be"].map fun p4 => p1 ++ p2 ++ p3 ++ "." ++ p4

/-- Embedding of `[^&=%\?]{11}` followed by anything: at least 11
characters remain and none of the first 11 is `&`, `=`, `%` or `?`
(a negated class, so newline is allowed). -/
def matchId (l : List Char) : Bool :=
  11 ≤ l.length && (l.take 11).all fun c => !(c == '&' || c == '=' || c == '%' || c == '?')

/-- Backtracking tail of the `.+\?v=` alternative once at least one `.`
character has been consumed: either the literal `?v=` starts here and the
identifier class follows, or one more non-newline character is consumed
by `.+`. -/
def matchSuffixQV : List Char → Bool
  | [] => false
  | c :: cs =>
      (match dropLead ['?', 'v', '='] (c :: cs) with
       | some rest => matchId rest
       | none => false)
      || (c != '\n' && matchSuffixQV cs)

/-- Embedding of the regex alternative `.+\?v=` followed by the
identifier class: `.` does not match newline, and `+` requires at least
one character before the literal `?v=`. -/
def matchDotPlusQV : List Char → Bool
  | [] => false
  | c :: cs => c != '\n' && matchSuffixQV cs

/-- Embedding of the optional path-marker group
`(watch\?v=|embed/|v/|.+\?v=)?` followed by the identifier class; the
first disjunct is the group matching empty. -/
def matchMarkerThenId (l : List Char) : Bool :=
  matchId l
  || (match dropLead "watch?v=".data l with | some r => matchId r | none => false)
  || (match dropLead "embed/".data l with | some r => matchId r | none => false)
  || (match dropLead "v/".data l with | some r => matchId r | none => false)
  || matchDotPlusQV l

/-- Embedding of `is_valid_youtube_url` (`server.py` lines 62-68):
the regex matches a prefix of `url` iff some domain variant followed by
`/` starts the string and the remainder matches the optional marker group
plus the 11-character identifier class. -/
def is_valid_youtube_url (url : String) : Bool :=
  domainVariants.any fun v =>
    match dropLead (v ++ "/").data url.data with
    | some rest => matchMarkerThenId rest
    | none => false

/-! ### Data model

The yt-dlp metadata dictionary is embedded as `RawFormat` / `RawInfo`;
`none` in an `Option` field models an absent key (for the codec and note
fields a JSON-null value behaves identically to an absent key in every
dictionary access the handler performs, so both are modelled by `none`).
`height` is `Option (Option Int)`: `some none` is a present key holding
null, which the handler treats differently from an absent key.
`format_id` is modelled as a required string because the handler indexes
`fmt['format_id']` unconditionally (yt-dlp always supplies it). -/

/-- Embedding of one entry of the format list the extraction library
returns. -/
structure RawFormat where
  format_id : String
  ext : Option String := none
  vcodec : Option String := none
  acodec : Option String := none
  height : Option (Option Int) := none
  format_note : Option String := none
  filesize : Option Int := none
  deriving Repr, DecidableEq

/-- Embedding of the metadata dictionary the extraction library returns;
`formats := none` models a dictionary without a `'formats'` key. -/
structure RawInfo where
  title : Option String := none
  duration : Option Int := none
  thumbnail : Option String := none
  uploader : Option String := none
  view_count : Option Int := none
  formats : Option (List RawFormat) := none
  deriving Repr, DecidableEq

/-- Embedding of the pydantic `VideoFormat` response model
(`server.py` lines 41-46). -/
structure VideoFormat where
  format_id : String
  ext : String
  quality : String
  filesize : Option Int := none
  format_note : Option String := none
  deriving Repr, DecidableEq

/-- Embedding of the pydantic `VideoInfo` response model
(`server.py` lines 48-55). -/
structure VideoInfo where
  title : String
  duration : Option Int := none
  thumbnail : Option String := none
  uploader : Option String := none
  view_count : Option Int := none
  formats : List VideoFormat := []
  url : String
  deriving Repr, DecidableEq

/-- An HTTP error response: the `status_code` and `detail` of a raised
`HTTPException`. -/
structure HErr where
  status : Nat
  detail : String
  deriving Repr, DecidableEq

/-! ### Metadata retrieval (`extract_video_info`, `server.py` lines 71-99) -/

/-- The possible outcomes of the library call
`ydl.extract_info(url, download=False)`: it returns a value (`ok`, with
`none` modelling a falsy result, i.e. `None` or an empty dictionary), or
raises `yt_dlp.utils.DownloadError`, or raises some other exception.
Passing the outcome as a parameter models the library as an opaque
collaborator. -/
inductive LibCall where
  | ok (info : Option RawInfo)
  | downloadError (msg : String)
  | otherError (msg : String)
  deriving Repr, DecidableEq

/-- An exception escaping the `try` body of `extract_video_info`: the
`HTTPException` raised on a falsy result (line 86), a library
`DownloadError`, or any other exception. -/
inductive PyExc where
  | httpExc (status : Nat) (detail : String)
  | downloadErr (msg : String)
  | other (msg : String)
  deriving Repr, DecidableEq

/-- Python's `str(e)` for the three exception shapes; for an
`HTTPException`, starlette renders `f"{status_code}: {detail}"`. -/
def pyStrExc : PyExc → String
  | .httpExc s d => toString s ++ ": " ++ d
  | .downloadErr m => m
  | .other m => m

/-- The `try` body of `extract_video_info` (lines 82-87): a falsy result
raises `HTTPException(404, ...)`, which — being raised inside the `try` —
escapes as an ordinary exception; a truthy result is returned. -/
def extractTryBody (lib : LibCall) : Except PyExc RawInfo :=
  match lib with
  | .ok none => .error (.httpExc 404 "Video not found or unavailable")
  | .ok (some i) => .ok i
  | .downloadError m => .error (.downloadErr m)
  | .otherError m => .error (.other m)

/-- The `except` chain of `extract_video_info` (lines 88-99):
`except yt_dlp.utils.DownloadError` classifies by substring tests on the
message, in order; every other exception — including the `HTTPException`
raised at line 86, which `except Exception` also catches — becomes a 500
with `str(e)` interpolated. -/
def classifyExc (e : PyExc) : HErr :=
  match e with
  | .downloadErr msg =>
      if pyIn "Video unavailable" msg || pyIn "not available" msg then
        ⟨404, "Video not found or unavailable"⟩
      else if pyIn "Private video" msg then
        ⟨403, "Video is private"⟩
      else if pyIn "This video is not available" msg then
        ⟨404, "Video not available"⟩
      else
        ⟨400, "Error extracting video info: " ++ msg⟩
  | e => ⟨500, "Unexpected error: " ++ pyStrExc e⟩

/-- Embedding of `extract_video_info` (lines 71-99): the URL check and the
400 it raises sit outside the `try`, so that error is not reclassified. -/
def extract_video_info (url : String) (lib : LibCall) : Except HErr RawInfo :=
  if is_valid_youtube_url url then
    match extractTryBody lib with
    | .ok i => .ok i
    | .error e => .error (classifyExc e)
  else
    .error ⟨400, "Invalid YouTube URL format"⟩

/-! ### Format reshaping (`get_video_info`, `server.py` lines 121-160) -/

/-- Python `str(...)` of the value of a present `height` key:
`str(None) = "None"`, `str(n)` = decimal digits. -/
def pyStrOptInt : Option Int → String
  | some n => toString n
  | none => "None"

/-- Embedding of lines 134-135.  `quality = fmt.get('height', 'Unknown')`
yields the sentinel string `'Unknown'` only when the key is absent; a
present key — even one holding null — yields a non-string value, which
compares unequal to `'Unknown'`, so the f-string branch runs and produces
`f"{quality}p"` (hence `"Nonep"` for a null height).  Only when the key is
absent does the handler fall back to `fmt.get('format_note', 'Unknown')`. -/
def quality_str (fmt : RawFormat) : String :=
  match fmt.height with
  | some h => pyStrOptInt h ++ "p"
  | none => fmt.format_note.getD "Unknown"

/-- Embedding of the filter on line 133:
`fmt.get('vcodec') != 'none' and fmt.get('acodec') != 'none'`.  An absent
key yields `None`, which is `!= 'none'`, so entries with missing codec
fields pass the filter. -/
def keepFmt (fmt : RawFormat) : Bool :=
  fmt.vcodec != some "none" && fmt.acodec != some "none"

/-- Embedding of the `VideoFormat(...)` construction on lines 137-143. -/
def buildVideoFormat (fmt : RawFormat) : VideoFormat :=
  { format_id := fmt.format_id
    ext := fmt.ext.getD "mp4"
    quality := quality_str fmt
    filesize := fmt.filesize
    format_note := fmt.format_note }

/-- Embedding of lines 130-143: start from an empty list, and if the
`'formats'` key is present, keep and convert the entries passing the
codec filter, in order. -/
def reshapeFormats (info : RawInfo) : List VideoFormat :=
  match info.formats with
  | some fl => (fl.filter keepFmt).map buildVideoFormat
  | none => []

/-- Embedding of `x.quality.replace('p', '')` for the single-character
pattern `'p'`: every occurrence of `p` is removed. -/
def stripP (q : String) : List Char :=
  q.data.filter fun c => c != 'p'

/-- Embedding of Python's `str.isdigit` restricted to the ASCII strings
this handler produces: non-empty and all decimal digits. -/
def pyIsDigitL (l : List Char) : Bool :=
  !l.isEmpty && l.all Char.isDigit

/-- Decimal value of a digit string, as Python's `int(...)` computes it
on an all-digit string. -/
def natOfDigits (l : List Char) : Nat :=
  l.foldl (fun acc c => 10 * acc + (c.toNat - 48)) 0

/-- Embedding of the sort key on line 146:
`int(x.quality.replace('p', '')) if x.quality.replace('p', '').isdigit()
else 0`. -/
def qkey (q : String) : Nat :=
  let s := stripP q
  if pyIsDigitL s then natOfDigits s else 0

/-- Stable descending insertion: the new element goes after every
element whose key is at least its own. -/
def insertDescAfter (key : α → Nat) (x : α) : List α → List α
  | [] => [x]
  | y :: ys => if key x ≤ key y then y :: insertDescAfter key x ys else x :: y :: ys

/-- Embedding of `formats.sort(key=..., reverse=True)` (line 146):
Python's sort is stable, and `reverse=True` preserves the original order
of entries with equal keys, which this left fold of stable insertions
reproduces. -/
def sortDesc (key : α → Nat) (l : List α) : List α :=
  l.foldl (fun acc x => insertDescAfter key x acc) []

/-- Embedding of the `/api/video-info` handler `get_video_info`
(lines 121-160).  The blocking library call is modelled by the `lib`
parameter; an `HTTPException` raised in `extract_video_info` propagates
through `except HTTPException: raise` unchanged. -/
def get_video_info (url : String) (lib : LibCall) : Except HErr VideoInfo :=
  match extract_video_info url lib with
  | .error e => .error e
  | .ok info =>
      .ok { title := info.title.getD "Unknown"
            duration := info.duration
            thumbnail := info.thumbnail
            uploader := info.uploader
            view_count := info.view_count
            formats := sortDesc (fun f => qkey f.quality) (reshapeFormats info)
            url := url }

/-! ### Download (`download_video` and `download_video_endpoint`,
`server.py` lines 102-115 and 162-210)

The library download call and the temporary directory's state after it
are opaque external effects, passed in as parameters: `DLCall` is the
outcome of `ydl.download([url])`, and `TempDirFS` is the freshly created
temporary directory, giving its listing (`os.listdir`) and the byte
content of each file (so `os.path.getsize` is the length of the
content).  File names in a listing contain no path separator, so
`os.path.basename(os.path.join(temp_dir, f))` is `f` itself. -/

/-- The outcome of the blocking `ydl.download([url])` call. -/
inductive DLCall where
  | ok
  | raises (msg : String)
  deriving Repr, DecidableEq

/-- Embedding of the pydantic `DownloadRequest` model (lines 57-59). -/
structure DownloadRequest where
  url : String
  format_id : String
  deriving Repr, DecidableEq

/-- The temporary directory after the library call returns: its listing
and the bytes of each listed file. -/
structure TempDirFS where
  files : List String
  content : String → List Nat

/-- The successful response of the download handler: the streamed body
and the headers it is sent with (lines 188-205). -/
structure DLResponse where
  body : List Nat
  contentLength : String
  contentDisposition : String
  mediaType : String
  deriving Repr, DecidableEq

/-- Embedding of `download_video` (lines 102-115): any exception from the
library call becomes a 500 with the message interpolated; on success the
output path is returned. -/
def download_video (url format_id output_path : String) (dl : DLCall) :
    Except HErr String :=
  match dl with
  | .ok => .ok output_path
  | .raises m => .error ⟨500, "Error downloading video: " ++ m⟩

/-- Embedding of the `/api/download` handler `download_video_endpoint`
(lines 162-210).  An `HTTPException` from `download_video` or from the
empty-directory check propagates via `except HTTPException: raise`; on
success the first listed file is streamed with `Content-Length` set to
its size and a `Content-Disposition` attachment naming it. -/
def download_video_endpoint (req : DownloadRequest) (dl : DLCall)
    (fs : TempDirFS) : Except HErr DLResponse :=
  match download_video req.url req.format_id "%(title)s.%(ext)s" dl with
  | .error e => .error e
  | .ok _ =>
      match fs.files with
      | [] => .error ⟨500, "Download failed - no file created"⟩
      | f :: _ =>
          .ok { body := fs.content f
                contentLength := toString (fs.content f).length
                contentDisposition := "attachment; filename=\"" ++ f ++ "\""
                mediaType := "application/octet-stream" }

/-! ### Lemmas about the stable descending sort -/

theorem mem_insertDescAfter (key : α → Nat) (x a : α) (l : List α) :
    a ∈ insertDescAfter key x l ↔ a = x ∨ a ∈ l := by
  induction l with
  | nil => simp [insertDescAfter]
  | cons y ys ih =>
    unfold insertDescAfter
    by_cases hxy : key x ≤ key y
    · rw [if_pos hxy]
      simp only [List.mem_cons, ih]
      tauto
    · rw [if_neg hxy]
      simp only [List.mem_cons]

theorem pairwise_insertDescAfter (key : α → Nat) (x : α) (l : List α)
    (h : l.Pairwise fun a b => key b ≤ key a) :
    (insertDescAfter key x l).Pairwise fun a b => key b ≤ key a := by
  induction l with
  | nil => simp [insertDescAfter]
  | cons y ys ih =>
    rw [List.pairwise_cons] at h
    obtain ⟨hy, hys⟩ := h
    unfold insertDescAfter
    by_cases hxy : key x ≤ key y
    · rw [if_pos hxy, List.pairwise_cons]
      refine ⟨fun z hz => ?_, ih hys⟩
      rcases (mem_insertDescAfter key x z ys).1 hz with rfl | hz'
      · exact hxy
      · exact hy z hz'
    · rw [if_neg hxy, List.pairwise_cons]
      refine ⟨fun z hz => ?_, List.pairwise_cons.2 ⟨hy, hys⟩⟩
      rcases List.mem_cons.1 hz with rfl | hz'
      · exact Nat.le_of_lt (Nat.lt_of_not_le hxy)
      · exact le_trans (hy z hz') (Nat.le_of_lt (Nat.lt_of_not_le hxy))

theorem perm_insertDescAfter (key : α → Nat) (x : α) (l : List α) :
    List.Perm (insertDescAfter key x l) (x :: l) := by
  induction l with
  | nil => exact List.Perm.refl _
  | cons y ys ih =>
    unfold insertDescAfter
    by_cases hxy : key x ≤ key y
    · rw [if_pos hxy]
      exact (ih.cons y).trans (List.Perm.swap x y ys)
    · rw [if_neg hxy]

theorem foldlInsert_pairwise (key : α → Nat) (l acc : List α)
    (h : acc.Pairwise fun a b => key b ≤ key a) :
    (l.foldl (fun acc x => insertDescAfter key x acc) acc).Pairwise
      fun a b => key b ≤ key a := by
  induction l generalizing acc with
  | nil => simpa using h
  | cons x xs ih => exact ih _ (pairwise_insertDescAfter key x acc h)

/-- The sorted output is descending in the key, pairwise. -/
theorem sortDesc_pairwise (key : α → Nat) (l : List α) :
    (sortDesc key l).Pairwise fun a b => key b ≤ key a :=
  foldlInsert_pairwise key l [] (List.Pairwise.nil)

theorem foldlInsert_perm (key : α → Nat) (l : List α) :
    ∀ acc : List α,
      List.Perm (l.foldl (fun acc x => insertDescAfter key x acc) acc) (acc ++ l) := by
  induction l with
  | nil => intro acc; simp
  | cons x xs ih =>
    intro acc
    have h1 := ih (insertDescAfter key x acc)
    have h2 : List.Perm (insertDescAfter key x acc ++ xs) ((x :: acc) ++ xs) :=
      (perm_insertDescAfter key x acc).append_right xs
    have h3 : List.Perm ((x :: acc) ++ xs) (acc ++ x :: xs) := by
      simpa using List.perm_middle.symm
    exact (h1.trans h2).trans h3

/-- The sorted output is a permutation of the input. -/
theorem sortDesc_perm (key : α → Nat) (l : List α) :
    List.Perm (sortDesc key l) l := by
  simpa using foldlInsert_perm key l []

/-! ### Lemmas about substring occurrence -/

theorem containsSub_of_leadsWith_append (a p l : List Char)
    (h : leadsWith (a ++ p) l = true) : containsSub p l = true := by
  induction a generalizing l with
  | nil =>
    cases l with
    | nil => simpa [containsSub] using h
    | cons c cs => simp only [containsSub, List.nil_append] at *; simp [h]
  | cons d ds ih =>
    cases l with
    | nil => simp [leadsWith] at h
    | cons c cs =>
      simp only [List.cons_append, leadsWith, Bool.and_eq_true] at h
      have := ih cs h.2
      simp [containsSub, this]

/-- A substring of a string occurring in `l` occurs in `l`: here in the
form needed for the error classifier, for a pattern that is a suffix of
the occurring string. -/
theorem containsSub_of_append (a p l : List Char)
    (h : containsSub (a ++ p) l = true) : containsSub p l = true := by
  induction l with
  | nil =>
    simp only [containsSub] at *
    cases a with
    | nil => simpa using h
    | cons d ds => simp [leadsWith] at h
  | cons c cs ih =>
    simp only [containsSub, Bool.or_eq_true] at *
    rcases h with h | h
    · have h2 := containsSub_of_leadsWith_append a p (c :: cs) h
      simpa [containsSub] using h2
    · exact Or.inr (ih h)

/-- A message containing `"This video is not available"` contains
`"not available"`. -/
theorem pyIn_not_available_of_this (msg : String)
    (h : pyIn "This video is not available" msg = true) :
    pyIn "not available" msg = true := by
  have hd : ("This video is not available").data
      = ("This video is ").data ++ ("not available").data := by decide
  unfold pyIn at *
  rw [hd] at h
  exact containsSub_of_append _ _ _ h

/-! ### Elimination lemmas for the info pipeline -/

theorem reshapeFormats_eq (info : RawInfo) :
    reshapeFormats info = ((info.formats.getD []).filter keepFmt).map buildVideoFormat := by
  cases h : info.formats <;> simp [reshapeFormats, h]

/-- A successful `extract_video_info` call means the URL validated and the
library returned a truthy result. -/
theorem extract_ok_elim (url : String) (lib : LibCall) (info : RawInfo)
    (h : extract_video_info url lib = .ok info) :
    lib = LibCall.ok (some info) ∧ is_valid_youtube_url url = true := by
  unfold extract_video_info at h
  by_cases hv : is_valid_youtube_url url
  · rw [if_pos hv] at h
    cases lib with
    | ok oi =>
      cases oi with
      | none => simp [extractTryBody] at h
      | some i =>
        simp only [extractTryBody, Except.ok.injEq] at h
        exact ⟨by rw [h], hv⟩
    | downloadError m => simp [extractTryBody] at h
    | otherError m => simp [extractTryBody] at h
  · rw [if_neg hv] at h
    exact absurd h (by simp)

/-- A successful `get_video_info` call means the library returned a truthy
result, the response's format list is the sorted reshaping of the
library's format list, and the response echoes the request URL. -/
theorem get_video_info_ok_elim (url : String) (lib : LibCall) (v : VideoInfo)
    (h : get_video_info url lib = .ok v) :
    ∃ info : RawInfo, lib = LibCall.ok (some info) ∧
      v.formats = sortDesc (fun f => qkey f.quality)
        (((info.formats.getD []).filter keepFmt).map buildVideoFormat) ∧
      v.url = url := by
  unfold get_video_info at h
  cases hx : extract_video_info url lib with
  | error e => rw [hx] at h; exact absurd h (by simp)
  | ok info =>
    rw [hx] at h
    obtain ⟨hlib, _⟩ := extract_ok_elim url lib info hx
    simp only [Except.ok.injEq] at h
    refine ⟨info, hlib, ?_, ?_⟩
    · rw [← h, reshapeFormats_eq]
    · rw [← h]

theorem dropLead_append (p l : List Char) : dropLead p (p ++ l) = some l := by
  induction p with
  | nil => rfl
  | cons c cs ih => simp [dropLead, ih]

/-! ### Claim theorems -/

/-- Claim C6 (confirmed): for every input string that does not match the
URL validation pattern, the info operation returns the 400 client error
(a status of at least 400), and it returns that same error for every
possible behaviour of the extraction library — the result does not depend
on the library outcome at all, which is the shallow-embedding rendering of
"the extraction library is never invoked for that request". -/
theorem c6_invalid_url_rejected_without_library_call (url : String)
    (h : is_valid_youtube_url url = false) (lib : LibCall) :
    get_video_info url lib = .error ⟨400, "Invalid YouTube URL format"⟩ := by
  simp [get_video_info, extract_video_info, h]

/-- Witness for C6: the non-matching URL from the repository's own test
file is rejected with the 400 error for a concrete library behaviour. -/
theorem c6_invalid_url_rejected_without_library_call_witness :
    get_video_info "https://www.example.com" (LibCall.ok none)
      = .error ⟨400, "Invalid YouTube URL format"⟩ :=
  c6_invalid_url_rejected_without_library_call "https://www.example.com"
    (by rfl) (LibCall.ok none)

/-- Claim C7 (confirmed): when the library download call returns but the
temporary directory lists no file, the download handler fails with the
500 server error (the `HTTPException` it raises propagates unchanged
through `except HTTPException: raise`). -/
theorem c7_empty_dir_server_error (req : DownloadRequest) (fs : TempDirFS)
    (h : fs.files = []) :
    download_video_endpoint req DLCall.ok fs
      = .error ⟨500, "Download failed - no file created"⟩ := by
  unfold download_video_endpoint download_video
  rw [h]

/-- Witness for C7 at a concrete request and an empty temporary
directory. -/
theorem c7_empty_dir_server_error_witness :
    download_video_endpoint ⟨"https://youtu.be/dQw4w9WgXcQ", "22"⟩ DLCall.ok
      ⟨[], fun _ => []⟩ = .error ⟨500, "Download failed - no file created"⟩ :=
  c7_empty_dir_server_error ⟨"https://youtu.be/dQw4w9WgXcQ", "22"⟩
    ⟨[], fun _ => []⟩ rfl

/-- Claim C8 (confirmed): every successful download response carries a
`Content-Length` equal to the byte size of the produced file, which is
exactly the byte count of the streamed body, and a `Content-Disposition`
attachment whose filename is the produced file's name. -/
theorem c8_headers_match_file (req : DownloadRequest) (dl : DLCall)
    (fs : TempDirFS) (resp : DLResponse)
    (h : download_video_endpoint req dl fs = .ok resp) :
    resp.contentLength = toString resp.body.length
    ∧ ∃ f rest, fs.files = f :: rest ∧ resp.body = fs.content f
        ∧ resp.contentDisposition = "attachment; filename=\"" ++ f ++ "\"" := by
  unfold download_video_endpoint download_video at h
  cases dl with
  | raises m => exact absurd h (by simp)
  | ok =>
    cases hf : fs.files with
    | nil => rw [hf] at h; exact absurd h (by simp)
    | cons f rest =>
      rw [hf] at h
      simp only [Except.ok.injEq] at h
      subst h
      exact ⟨by simp, f, rest, rfl, rfl, rfl⟩

/-- Concrete setup for the C8 witness: temporary directory with one
three-byte file. -/
def fsC8 : TempDirFS := { files := ["video.mp4"], content := fun _ => [82, 73, 70] }

/-- Expected response for the C8 witness. -/
def respC8 : DLResponse :=
  { body := [82, 73, 70], contentLength := "3",
    contentDisposition := "attachment; filename=\"video.mp4\"",
    mediaType := "application/octet-stream" }

/-- Witness for C8 at a concrete successful download. -/
theorem c8_headers_match_file_witness :
    respC8.contentLength = toString respC8.body.length
    ∧ ∃ f rest, fsC8.files = f :: rest ∧ respC8.body = fsC8.content f
        ∧ respC8.contentDisposition = "attachment; filename=\"" ++ f ++ "\"" :=
  c8_headers_match_file ⟨"https://youtu.be/dQw4w9WgXcQ", "22"⟩ DLCall.ok
    fsC8 respC8 (by rfl)

/-- Claim C9 (confirmed): every successful info response echoes the
request's URL string verbatim in its `url` field, whatever the library
returned. -/
theorem c9_response_url_is_request_url (url : String) (lib : LibCall)
    (v : VideoInfo) (h : get_video_info url lib = .ok v) : v.url = url := by
  obtain ⟨info, _, _, hurl⟩ := get_video_info_ok_elim url lib v h
  exact hurl

/-- Expected response for the C9 witness: the library returns an empty
metadata dictionary (all keys absent but truthy), so every field falls
back to its default and the URL is echoed. -/
def vC9 : VideoInfo := { title := "Unknown", url := "youtube.com/watch?v=dQw4w9WgXcQ" }

/-- Witness for C9 at a concrete successful info call. -/
theorem c9_response_url_is_request_url_witness :
    vC9.url = "youtube.com/watch?v=dQw4w9WgXcQ" :=
  c9_response_url_is_request_url "youtube.com/watch?v=dQw4w9WgXcQ"
    (LibCall.ok (some {})) vC9 (by rfl)

/-- Claim C10 (confirmed): the path-marker group of the validation regex
is optional, so every accepted domain variant followed by `/` and any 11
characters avoiding `&`, `=`, `%`, `?` passes the validator; in
particular `"youtube.com/dQw4w9WgXcQ"` is accepted although it contains
none of the markers `/watch?v=`, `/embed/`, `/v/` or `?v=`. -/
theorem c10_markerless_urls_accepted :
    (∀ v ∈ domainVariants, ∀ id : String, id.length = 11 →
        (id.data.all fun c => !(c == '&' || c == '=' || c == '%' || c == '?')) = true →
        is_valid_youtube_url (v ++ "/" ++ id) = true)
    ∧ is_valid_youtube_url "youtube.com/dQw4w9WgXcQ" = true
    ∧ pyIn "/watch?v=" "youtube.com/dQw4w9WgXcQ" = false
    ∧ pyIn "/embed/" "youtube.com/dQw4w9WgXcQ" = false
    ∧ pyIn "/v/" "youtube.com/dQw4w9WgXcQ" = false
    ∧ pyIn "?v=" "youtube.com/dQw4w9WgXcQ" = false := by
  refine ⟨?_, by rfl, by rfl, by rfl, by rfl, by rfl⟩
  intro v hv id hlen hall
  unfold is_valid_youtube_url
  rw [List.any_eq_true]
  refine ⟨v, hv, ?_⟩
  have hdata : (v ++ "/" ++ id).data = (v ++ "/").data ++ id.data :=
    String.data_append (v ++ "/") id
  rw [hdata, dropLead_append]
  have hlen' : id.data.length = 11 := hlen
  have hid : matchId id.data = true := by
    unfold matchId
    rw [Bool.and_eq_true]
    refine ⟨by simp [hlen'], ?_⟩
    rw [List.take_of_length_le (le_of_eq hlen')]
    exact hall
  simp [matchMarkerThenId, hid]

/-- Witness for C10: the universal part applied at the variant
`"youtube.com"` and the identifier `"dQw4w9WgXcQ"`. -/
theorem c10_markerless_urls_accepted_witness :
    is_valid_youtube_url ("youtube.com" ++ "/" ++ "dQw4w9WgXcQ") = true :=
  c10_markerless_urls_accepted.1 "youtube.com" (by decide) "dQw4w9WgXcQ"
    (by rfl) (by rfl)

/-- Claim C1 (code bug): the spec — and the handler's own line 86, which
raises `HTTPException(404, "Video not found or unavailable")` — intend the
not-found status when the library returns a missing or empty result.  But
that exception is raised inside the `try` block, and `fastapi.HTTPException`
is a subclass of `Exception`, so the blanket `except Exception` on line 98
catches it and re-raises a 500 whose detail interpolates `str(e)`.  This
theorem evaluates the embedded info operation at the failing input: the
response is the 500 server error, not the 404 the claim states. -/
theorem c1_empty_result_yields_500_not_404 :
    get_video_info "youtube.com/watch?v=dQw4w9WgXcQ" (LibCall.ok none)
      = .error ⟨500, "Unexpected error: 404: Video not found or unavailable"⟩ := by
  rfl

/-- Library result for the C2 counterexample: a single format entry whose
video codec is present but empty and whose audio codec is a normal codec
string. -/
def infoC2 : RawInfo :=
  { formats := some [{ format_id := "f1", ext := some "mp4", vcodec := some "",
                       acodec := some "mp4a.40.2", height := some (some 360) }] }

/-- Counterexample to claim C2 as stated: the entry's video codec is the
empty string, so by the claim ("non-empty and not none") it must be
dropped, yet the handler keeps it, because the filter only compares
against the literal `'none'`. -/
theorem c2_counterexample_empty_vcodec_kept :
    (get_video_info "youtube.com/watch?v=dQw4w9WgXcQ"
        (LibCall.ok (some infoC2))).map (fun v => v.formats.map VideoFormat.format_id)
      = .ok ["f1"]
    ∧ infoC2.formats.getD []
        = [{ format_id := "f1", ext := some "mp4", vcodec := some "",
             acodec := some "mp4a.40.2", height := some (some 360) }] :=
  ⟨rfl, rfl⟩

/-- The keep condition of the amended claim C2: an entry is kept iff its
video codec field is not the string `"none"` and its audio codec field is
not the string `"none"`; a missing or empty codec field therefore counts
as kept. -/
def keptPerAmendedC2 (fmt : RawFormat) : Prop :=
  fmt.vcodec ≠ some "none" ∧ fmt.acodec ≠ some "none"

instance : DecidablePred keptPerAmendedC2 := fun fmt => by
  unfold keptPerAmendedC2
  infer_instance

theorem keepFmt_eq_decide (fmt : RawFormat) :
    keepFmt fmt = decide (keptPerAmendedC2 fmt) := by
  by_cases h1 : fmt.vcodec = some "none" <;> by_cases h2 : fmt.acodec = some "none" <;>
    simp [keepFmt, keptPerAmendedC2, h1, h2]

/-- Claim C2 (corrected): the formats of every successful info response
are exactly (up to the descending reordering) the library entries whose
`vcodec` field is not the string `"none"` and whose `acodec` field is not
the string `"none"` — so entries explicitly marked video-only or
audio-only are dropped, but entries with a missing or empty codec field
are kept. -/
theorem c2_kept_formats (url : String) (info : RawInfo) (v : VideoInfo)
    (h : get_video_info url (LibCall.ok (some info)) = .ok v) :
    List.Perm v.formats
      (((info.formats.getD []).filter fun fmt => decide (keptPerAmendedC2 fmt)).map
        buildVideoFormat) := by
  obtain ⟨info', hlib, hfor, _⟩ := get_video_info_ok_elim _ _ _ h
  injection hlib with h1
  injection h1 with h2
  subst h2
  have hfe : (info.formats.getD []).filter keepFmt
      = (info.formats.getD []).filter fun fmt => decide (keptPerAmendedC2 fmt) :=
    List.filter_congr fun a _ => keepFmt_eq_decide a
  rw [hfor, ← hfe]
  exact sortDesc_perm _ _

/-- Expected response for the C2 witness. -/
def vC2 : VideoInfo :=
  { title := "Unknown",
    formats := [{ format_id := "f1", ext := "mp4", quality := "360p" }],
    url := "youtube.com/watch?v=dQw4w9WgXcQ" }

/-- Witness for the amended C2 at a concrete successful info call. -/
theorem c2_kept_formats_witness :
    List.Perm vC2.formats
      (((infoC2.formats.getD []).filter fun fmt => decide (keptPerAmendedC2 fmt)).map
        buildVideoFormat) :=
  c2_kept_formats "youtube.com/watch?v=dQw4w9WgXcQ" infoC2 vC2 (by rfl)

/-- Library result for the C3 counterexample: a kept entry whose
`height` key is present but holds null, with a quality note available. -/
def infoC3 : RawInfo :=
  { formats := some [{ format_id := "f1", vcodec := some "avc1.64001F",
                       acodec := some "mp4a.40.2", height := some none,
                       format_note := some "medium" }] }

/-- Counterexample to claim C3 as stated: the kept entry has no numeric
pixel height (the key holds null) and carries the quality note
`"medium"`, so by the claim its label must be `"medium"`; the handler
instead produces `f"{None}p"`, i.e. `"Nonep"`, because
`fmt.get('height', 'Unknown')` only falls back when the key is absent. -/
theorem c3_counterexample_null_height_gives_nonep :
    (get_video_info "youtube.com/watch?v=dQw4w9WgXcQ"
        (LibCall.ok (some infoC3))).map (fun v => v.formats.map VideoFormat.quality)
      = .ok ["Nonep"] := by
  rfl

/-- The labelling rule of the amended claim C3: the label is
`str(height) + "p"` whenever the `height` key is present — `"Nonep"` when
its value is null — and only for an absent key falls back to the quality
note, then to `"Unknown"`. -/
def labelPerAmendedC3 (fmt : RawFormat) : String :=
  match fmt.height with
  | some (some n) => toString n ++ "p"
  | some none => "Nonep"
  | none =>
      match fmt.format_note with
      | some note => note
      | none => "Unknown"

theorem quality_str_eq_labelPerAmendedC3 (fmt : RawFormat) :
    quality_str fmt = labelPerAmendedC3 fmt := by
  cases hh : fmt.height with
  | some hi => cases hi <;> simp [quality_str, labelPerAmendedC3, hh, pyStrOptInt]
  | none => cases hn : fmt.format_note <;>
      simp [quality_str, labelPerAmendedC3, hh, hn]

/-- Claim C3 (corrected): every format of a successful info response gets
its quality label from a kept library entry by the amended rule. -/
theorem c3_quality_label (url : String) (info : RawInfo) (v : VideoInfo)
    (h : get_video_info url (LibCall.ok (some info)) = .ok v) :
    ∀ f ∈ v.formats, ∃ fmt ∈ info.formats.getD [],
      keepFmt fmt = true ∧ f.quality = labelPerAmendedC3 fmt := by
  obtain ⟨info', hlib, hfor, _⟩ := get_video_info_ok_elim _ _ _ h
  injection hlib with h1
  injection h1 with h2
  subst h2
  intro f hf
  rw [hfor] at hf
  have hf2 : f ∈ ((info.formats.getD []).filter keepFmt).map buildVideoFormat :=
    ((sortDesc_perm _ _).mem_iff).1 hf
  rw [List.mem_map] at hf2
  obtain ⟨fmt, hmem, hbuild⟩ := hf2
  rw [List.mem_filter] at hmem
  refine ⟨fmt, hmem.1, hmem.2, ?_⟩
  rw [← hbuild]
  exact quality_str_eq_labelPerAmendedC3 fmt

/-- Expected response for the C3 witness. -/
def vC3 : VideoInfo :=
  { title := "Unknown",
    formats := [{ format_id := "f1", ext := "mp4", quality := "Nonep",
                  format_note := some "medium" }],
    url := "youtube.com/watch?v=dQw4w9WgXcQ" }

/-- Witness for the amended C3 at a concrete successful info call. -/
theorem c3_quality_label_witness :
    ∃ fmt ∈ infoC3.formats.getD [],
      keepFmt fmt = true
      ∧ ({ format_id := "f1", ext := "mp4", quality := "Nonep",
           format_note := some "medium" } : VideoFormat).quality
          = labelPerAmendedC3 fmt :=
  c3_quality_label "youtube.com/watch?v=dQw4w9WgXcQ" infoC3 vC3 (by rfl)
    { format_id := "f1", ext := "mp4", quality := "Nonep",
      format_note := some "medium" } (by simp [vC3])

/-- Library result for the C4 counterexample: a kept entry with
non-numeric label `"low"` followed by a kept entry with numeric label
`"0p"`. -/
def infoC4 : RawInfo :=
  { formats := some [
      { format_id := "a", vcodec := some "avc1.64001F", acodec := some "mp4a.40.2",
        format_note := some "low" },
      { format_id := "b", vcodec := some "avc1.64001F", acodec := some "mp4a.40.2",
        height := some (some 0) }] }

/-- Counterexample to claim C4 as stated: the response lists the
non-numeric label `"low"` before the numeric label `"0p"` — both sort
with key `0`, and Python's stable `reverse=True` sort keeps their
original order — so an entry whose label has no numeric portion does not
appear after all entries with numeric labels. -/
theorem c4_counterexample_zero_label_after_nonnumeric :
    (get_video_info "youtube.com/watch?v=dQw4w9WgXcQ"
        (LibCall.ok (some infoC4))).map (fun v => v.formats.map VideoFormat.quality)
      = .ok ["low", "0p"]
    ∧ pyIsDigitL (stripP "0p") = true
    ∧ pyIsDigitL (stripP "low") = false :=
  ⟨rfl, rfl, rfl⟩

/-- Claim C4 (corrected): the formats of every successful info response
are pairwise descending in the numeric sort key (non-numeric labels
keying as zero), and consequently every entry whose label has no numeric
portion is followed only by entries whose key is zero — i.e. it appears
after all entries with positive numeric labels, while ties at key zero
(such as the label `"0p"`) keep their original relative order. -/
theorem c4_formats_sorted_descending (url : String) (lib : LibCall)
    (v : VideoInfo) (h : get_video_info url lib = .ok v) :
    v.formats.Pairwise (fun a b => qkey b.quality ≤ qkey a.quality)
    ∧ v.formats.Pairwise
        (fun a b => pyIsDigitL (stripP a.quality) = false → qkey b.quality = 0) := by
  obtain ⟨info, _, hfor, _⟩ := get_video_info_ok_elim url lib v h
  have hp : v.formats.Pairwise (fun a b => qkey b.quality ≤ qkey a.quality) := by
    rw [hfor]
    exact sortDesc_pairwise _ _
  refine ⟨hp, hp.imp ?_⟩
  intro a b hab hnd
  have ha : qkey a.quality = 0 := by simp [qkey, hnd]
  rw [ha] at hab
  exact Nat.le_zero.1 hab

/-- Library result for the C4 witness: kept entries with heights 360 and
720. -/
def infoC4W : RawInfo :=
  { formats := some [
      { format_id := "a", vcodec := some "avc1.64001F", acodec := some "mp4a.40.2",
        height := some (some 360) },
      { format_id := "b", vcodec := some "avc1.64001F", acodec := some "mp4a.40.2",
        height := some (some 720) }] }

/-- Expected response for the C4 witness: `720p` sorted before `360p`. -/
def vC4W : VideoInfo :=
  { title := "Unknown",
    formats := [{ format_id := "b", ext := "mp4", quality := "720p" },
                { format_id := "a", ext := "mp4", quality := "360p" }],
    url := "youtube.com/watch?v=dQw4w9WgXcQ" }

/-- Witness for the amended C4 at a concrete successful info call. -/
theorem c4_formats_sorted_descending_witness :
    vC4W.formats.Pairwise (fun a b => qkey b.quality ≤ qkey a.quality)
    ∧ vC4W.formats.Pairwise
        (fun a b => pyIsDigitL (stripP a.quality) = false → qkey b.quality = 0) :=
  c4_formats_sorted_descending "youtube.com/watch?v=dQw4w9WgXcQ"
    (LibCall.ok (some infoC4W)) vC4W (by rfl)

/-- Counterexample to claim C5 as stated: the message
`"Private video not available"` contains `"Private video"`, so by the
claim the failure status must be 403; but it also contains
`"not available"`, and the first `if` branch of the classifier wins, so
the code responds 404. -/
theorem c5_counterexample_private_and_unavailable :
    extract_video_info "youtube.com/watch?v=dQw4w9WgXcQ"
        (LibCall.downloadError "Private video not available")
      = .error ⟨404, "Video not found or unavailable"⟩
    ∧ pyIn "Private video" "Private video not available" = true :=
  ⟨rfl, rfl⟩

/-- Claim C5 (corrected): the substring checks apply in order, so
`"Private video"` yields 403 only when neither `"Video unavailable"` nor
`"not available"` occurs; a message containing `"Video unavailable"` or
`"not available"` yields 404; a message containing
`"This video is not available"` also yields 404 (through the first
branch, which its substring `"not available"` already triggers); a
library error matching none of the substrings yields the 400 with the
message included; and any other exception yields the 500 with the
underlying message included. -/
theorem c5_error_classification (url msg : String)
    (hv : is_valid_youtube_url url = true) :
    ((pyIn "Video unavailable" msg || pyIn "not available" msg) = true →
        extract_video_info url (LibCall.downloadError msg)
          = .error ⟨404, "Video not found or unavailable"⟩)
    ∧ (pyIn "Video unavailable" msg = false → pyIn "not available" msg = false →
        pyIn "Private video" msg = true →
        extract_video_info url (LibCall.downloadError msg)
          = .error ⟨403, "Video is private"⟩)
    ∧ (pyIn "This video is not available" msg = true →
        extract_video_info url (LibCall.downloadError msg)
          = .error ⟨404, "Video not found or unavailable"⟩)
    ∧ (pyIn "Video unavailable" msg = false → pyIn "not available" msg = false →
        pyIn "Private video" msg = false →
        extract_video_info url (LibCall.downloadError msg)
          = .error ⟨400, "Error extracting video info: " ++ msg⟩)
    ∧ (∀ m : String, extract_video_info url (LibCall.otherError m)
          = .error ⟨500, "Unexpected error: " ++ m⟩) := by
  refine ⟨?_, ?_, ?_, ?_, ?_⟩
  · intro h1
    simp [extract_video_info, extractTryBody, classifyExc, hv, h1]
  · intro h1 h2 h3
    simp [extract_video_info, extractTryBody, classifyExc, hv, h1, h2, h3]
  · intro h1
    have h2 := pyIn_not_available_of_this msg h1
    simp [extract_video_info, extractTryBody, classifyExc, hv, h2]
  · intro h1 h2 h3
    have h4 : pyIn "This video is not available" msg = false := by
      cases hb : pyIn "This video is not available" msg with
      | false => rfl
      | true => exact absurd (pyIn_not_available_of_this msg hb) (by simp [h2])
    simp [extract_video_info, extractTryBody, classifyExc, hv, h1, h2, h3, h4]
  · intro m
    simp [extract_video_info, extractTryBody, classifyExc, pyStrExc, hv]

/-- Witness for the amended C5: a message containing only
`"Private video"` is classified 403. -/
theorem c5_error_classification_witness :
    extract_video_info "youtube.com/watch?v=dQw4w9WgXcQ"
        (LibCall.downloadError "Private video")
      = .error ⟨403, "Video is private"⟩ :=
  (c5_error_classification "youtube.com/watch?v=dQw4w9WgXcQ" "Private video"
      (by rfl)).2.1 (by rfl) (by rfl) (by rfl)

end Server
